import Mathlib

/-!
Verification of the FIGARO trade-flow parser (src/parser.py) against its
natural-language specification.

The embedding models the parsing, filtering and aggregation pipeline of
class FIGAROParser.  Tables are lists of rows; a row is the compound-key
string of the first column together with one optional rational value per
year column (a missing cell, NaN in pandas, is modelled as none).  Python
string operations (split, strip, isdigit, int, lexicographic order) are
re-implemented structurally over the character list of a string so that
every definition evaluates inside the kernel.  Numeric values are exact
rationals; the float values handled by the program are modelled as such
because every operation the pipeline performs on them (comparison,
addition, zero test) is exact on the concrete decimal data involved.
-/

namespace EconFlow

/-! ## Python string primitives -/

/-- Model of the Python str.split separator loop: splits at every occurrence
of the separator character, keeping empty pieces, so that splitting the
empty string yields one empty piece, as in Python. -/
def pySplitAux (sep : Char) : List Char → List Char → List (List Char)
  | [], acc => [acc.reverse]
  | c :: cs, acc =>
    if c = sep then acc.reverse :: pySplitAux sep cs []
    else pySplitAux sep cs (c :: acc)

/-- Model of the Python expression value.split(sep) for a one-character
separator. -/
def pySplit (sep : Char) (s : String) : List String :=
  (pySplitAux sep s.data []).map String.mk

/-- Model of the Python expression part.strip(): remove whitespace from both
ends of the string. -/
def pyStrip (s : String) : String :=
  String.mk (((s.data.dropWhile Char.isWhitespace).reverse.dropWhile Char.isWhitespace).reverse)

/-- Model of the Python expression s.isdigit(): true when the string is
nonempty and every character is a digit. -/
def pyIsDigit (s : String) : Bool :=
  !s.data.isEmpty && s.data.all Char.isDigit

/-- Model of the Python expression int(s) on a digit string. -/
def pyToNat (s : String) : Nat :=
  s.data.foldl (fun n c => 10 * n + (c.toNat - 48)) 0

/-- Lexicographic strict order on character lists by code point, the order
Python uses to compare strings. -/
def charListLt : List Char → List Char → Bool
  | _, [] => false
  | [], _ :: _ => true
  | a :: as, b :: bs => a < b || (a = b && charListLt as bs)

/-- Non-strict string order used to model the ascending sort performed by
the Python built-in sorted and by the pandas groupby on string keys. -/
def strLeB (a b : String) : Bool := !(charListLt b.data a.data)

/-- Model of the Python expression sep.join(parts) for the literal
separators used by the program. -/
def pyJoin (sep : String) : List String → String
  | [] => ""
  | [p] => p
  | p :: rest => p ++ sep ++ pyJoin sep rest

/-! ## Data model -/

/-- Structured compound key, dataclass FIGAROMetadata of parser.py. -/
structure FIGAROMetadata where
  freq : String
  nace_r2 : String
  c_exp : String
  unit : String
  geo : String
deriving DecidableEq

/-- One data row of a TSV table: the compound-key string of the first
column and one optional numeric cell per year column (none models a
missing cell, read as NaN by pandas). -/
structure Row where
  key : String
  vals : List (Option ℚ)
deriving DecidableEq

/-- One of the two logical tables (imports or exports): the header name of
the first column, the names of the remaining columns, and the data rows. -/
structure Table where
  firstCol : String
  cols : List String
  rows : List Row
deriving DecidableEq

/-- The dataset owned by a parser instance: the imports table
(estat_naio_10_fgti.tsv) and the exports table (estat_naio_10_fgte.tsv). -/
structure Dataset where
  imports : Table
  exports : Table
deriving DecidableEq

/-- Intermediate projected row of the pipeline, one row of the result_df
DataFrame built in _process_flow_file: classification code, value for the
requested year, geography.  A none field models a NaN / None cell. -/
structure Triple where
  nace : Option String
  value : Option ℚ
  geo : Option String
deriving DecidableEq

/-- Output record of get_flow_data: a dict with source, target and value
keys.  The value field is an optional rational because a Python float can
be NaN; none models NaN. -/
structure Flow where
  source : Option String
  target : String
  value : Option ℚ
deriving DecidableEq

/-- Error outcomes of the modelled calls.  yearNotFound models
YearNotFoundError, fileFormat models FileFormatError, valueError models
the built-in ValueError that several methods wrap unexpected failures
into. -/
inductive FigError where
  | yearNotFound : String → FigError
  | fileFormat : String → FigError
  | valueError : String → FigError
deriving DecidableEq

/-! ## Parsing -/

/-- Model of FIGAROParser.parse_metadata (parser.py lines 123 to 138):
split the first-column value on commas, strip each part, and require at
least five parts.  The Python guard for a non-string or empty value is
subsumed: an empty string splits into a single part. -/
def parse_metadata (value : String) : Option FIGAROMetadata :=
  match (pySplit ',' value).map pyStrip with
  | f :: n :: c :: u :: g :: _ => some ⟨f, n, c, u, g⟩
  | _ => none

/-- Model of FIGAROParser.truncate_nace_code (parser.py lines 85 to 90):
keep the first level dot-separated segments; an empty code or a level
below one is returned unchanged. -/
def truncate_nace_code (code : String) (level : Int) : String :=
  if code = "" || level < 1 then code
  else pyJoin (".") ((pySplit '.' code).take level.toNat)

/-! ## Column access -/

/-- Index of a named column among the year columns of a table, as pandas
column selection df of year_str resolves it. -/
def Table.colIdx (t : Table) (name : String) : Nat :=
  t.cols.findIdx (fun c => c == name)

/-- Membership test year_str not in df.columns of parser.py lines 45 and
176: the first, metadata column participates in the test. -/
def Table.hasCol (t : Table) (name : String) : Bool :=
  name == t.firstCol || t.cols.contains name

/-- Cell of a row at a column index; a row shorter than the header reads
as a missing cell, as pandas pads short lines with NaN. -/
def Row.cell (r : Row) (i : Nat) : Option ℚ :=
  Option.join r.vals[i]?

/-! ## Derived views -/

/-- Model of FIGAROParser.get_available_years (parser.py lines 140 to
154): on an empty table return the empty list, otherwise take every
column after the first whose stripped name is entirely digits, convert to
int, and sort ascending. -/
def get_available_years (t : Table) : List Nat :=
  if t.rows.isEmpty then []
  else List.insertionSort (fun a b => a ≤ b)
    (t.cols.filterMap (fun c => if pyIsDigit (pyStrip c) then some (pyToNat (pyStrip c)) else none))

/-- Model of FIGAROParser.get_available_regions (parser.py lines 65 to
83): geography fields of the successfully parsed keys of both tables,
as a sorted deduplicated list (sorted(list(set))). -/
def get_available_regions (d : Dataset) : List String :=
  List.insertionSort (fun a b => strLeB a b = true)
    (((d.imports.rows ++ d.exports.rows).filterMap
        (fun r => (parse_metadata r.key).map FIGAROMetadata.geo)).dedup)

/-! ## The get_flow_data pipeline -/

/-- Projection of a table to (nace_r2, value, geo) triples for a year, the
result_df construction of parser.py lines 182 to 187. -/
def projectTriples (t : Table) (year : Nat) : List Triple :=
  let i := t.colIdx (toString year)
  t.rows.map (fun r =>
    ⟨(parse_metadata r.key).map FIGAROMetadata.nace_r2,
     r.cell i,
     (parse_metadata r.key).map FIGAROMetadata.geo⟩)

/-- Filter step result_df.dropna() of parser.py lines 190 to 191: drop
every triple with a missing field. -/
def dropnaStep (drop_nan : Bool) (ts : List Triple) : List Triple :=
  if drop_nan then
    ts.filter (fun tr => tr.nace.isSome && tr.value.isSome && tr.geo.isSome)
  else ts

/-- Filter step of parser.py lines 193 to 194: when min_value is positive,
keep triples whose value compares at least min_value; a NaN value
compares false in pandas and is removed. -/
def minValueStep (min_value : ℚ) (ts : List Triple) : List Triple :=
  if 0 < min_value then
    ts.filter (fun tr =>
      match tr.value with
      | some v => min_value ≤ v
      | none => false)
  else ts

/-- Filter step of parser.py lines 196 to 197: the regions argument is
applied only when truthy (neither None nor the empty list); a None
geography is never a member of the list. -/
def regionStep (regions : Option (List String)) (ts : List Triple) : List Triple :=
  match regions with
  | none => ts
  | some rs =>
    if rs.isEmpty then ts
    else ts.filter (fun tr =>
      match tr.geo with
      | some g => rs.contains g
      | none => false)

/-- Truncation of the classification code of one triple, the apply of
parser.py lines 201 to 203; a missing code stays missing because
truncate_nace_code returns a falsy argument unchanged. -/
def truncTriple (level : Int) (tr : Triple) : Triple :=
  ⟨tr.nace.map (fun c => truncate_nace_code c level), tr.value, tr.geo⟩

/-- The pandas expression result_df.groupby(nace_r2).value.sum() of
parser.py line 205: rows with a missing group key are dropped, the
distinct keys are sorted ascending, and the values of each group are
summed ignoring missing cells (an all-missing group sums to zero).  The
geography column is discarded by the groupby. -/
def aggregate (ts : List Triple) : List Triple :=
  (List.insertionSort (fun a b => strLeB a b = true) (ts.filterMap Triple.nace).dedup).map
    (fun k =>
      ⟨some k,
       some ((ts.filter (fun tr => tr.nace == some k)).filterMap Triple.value).sum,
       none⟩)

/-- Aggregation step of parser.py lines 199 to 205, applied only when a
positive nace_level is given. -/
def naceStep (nace_level : Option Int) (ts : List Triple) : List Triple :=
  match nace_level with
  | none => ts
  | some l => if 0 < l then aggregate (ts.map (truncTriple l)) else ts

/-- The three row filters of _process_flow_file in source order. -/
def filteredTriples (t : Table) (year : Nat) (min_value : ℚ) (drop_nan : Bool)
    (regions : Option (List String)) : List Triple :=
  regionStep regions (minValueStep min_value (dropnaStep drop_nan (projectTriples t year)))

/-- Emission loop of parser.py lines 208 to 216: one flow per surviving
triple whose value is not NaN (the extra safety check of line 215). -/
def emitFlows (flow_type : String) (ts : List Triple) : List Flow :=
  ts.filterMap (fun tr => tr.value.map (fun v => ⟨tr.nace, flow_type, some v⟩))

/-- Sorted distinct group keys of the pandas groupby of parser.py line
205: the distinct non-missing classification codes, ascending. -/
def groupKeys (ts : List Triple) : List String :=
  List.insertionSort (fun a b => strLeB a b = true) (ts.filterMap Triple.nace).dedup

/-- Value of one groupby group: the sum of the non-missing values of the
triples carrying the given classification code. -/
def groupSum (ts : List Triple) (k : String) : ℚ :=
  ((ts.filter (fun tr => tr.nace == some k)).filterMap Triple.value).sum

/-- The list aggregate acts on: the filtered triples with their codes
truncated, the intermediate state after parser.py line 203. -/
def truncatedTriples (t : Table) (year : Nat) (mv : ℚ) (dn : Bool)
    (rs : Option (List String)) (L : Int) : List Triple :=
  (filteredTriples t year mv dn rs).map (truncTriple L)

/-- Error message of parser.py lines 177 to 180; the available years are
always read from the imports table by get_available_years. -/
def yearNotFoundMsg (year : Nat) (avail : List Nat) : String :=
  "Year " ++ toString year ++ " not found in data. Available years: " ++
    pyJoin (", ") (avail.map toString)

/-- Model of FIGAROParser._process_flow_file (parser.py lines 156 to 216).
The imports table is passed alongside because the year-not-found message
enumerates get_available_years, which always reads the imports file. -/
def process_flow_file (imp t : Table) (year : Nat) (flow_type : String)
    (min_value : ℚ) (drop_nan : Bool) (nace_level : Option Int)
    (regions : Option (List String)) : Except FigError (List Flow) :=
  if t.rows.isEmpty then Except.ok []
  else if !(t.hasCol (toString year)) then
    Except.error (FigError.yearNotFound (yearNotFoundMsg year (get_available_years imp)))
  else
    Except.ok (emitFlows flow_type
      (naceStep nace_level (filteredTriples t year min_value drop_nan regions)))

/-- Model of FIGAROParser.get_flow_data (parser.py lines 218 to 277):
process the imports table when included, then the exports table when
included, concatenating imports first; a YearNotFoundError raised by
either processing propagates unchanged. -/
def get_flow_data (d : Dataset) (year : Nat) (min_value : ℚ) (drop_nan : Bool)
    (nace_level : Option Int) (regions : Option (List String))
    (include_imports include_exports : Bool) : Except FigError (List Flow) :=
  match (if include_imports then
           process_flow_file d.imports d.imports year ("Total Imports")
             min_value drop_nan nace_level regions
         else Except.ok []) with
  | Except.error e => Except.error e
  | Except.ok imps =>
    match (if include_exports then
             process_flow_file d.imports d.exports year ("Total Exports")
               min_value drop_nan nace_level regions
           else Except.ok []) with
    | Except.error e => Except.error e
    | Except.ok exps => Except.ok (imps ++ exps)

/-! ## get_value_range -/

/-- Minimum of a pandas Series for one column: the least non-missing cell,
or NaN when every cell is missing. -/
def seriesMin (vs : List (Option ℚ)) : Option ℚ := (vs.filterMap id).min?

/-- Maximum of a pandas Series for one column. -/
def seriesMax (vs : List (Option ℚ)) : Option ℚ := (vs.filterMap id).max?

/-- The Python built-in min of two possibly-NaN floats: when the first
argument is NaN the comparison of the second is false and the first, NaN,
is returned; a NaN second argument never displaces the first. -/
def pyMin2 : Option ℚ → Option ℚ → Option ℚ
  | none, _ => none
  | some a, none => some a
  | some a, some b => some (min a b)

/-- The Python built-in max of two possibly-NaN floats, with the same
NaN propagation as pyMin2. -/
def pyMax2 : Option ℚ → Option ℚ → Option ℚ
  | none, _ => none
  | some a, none => some a
  | some a, some b => some (max a b)

/-- All cells of the named year column of a table. -/
def Table.colCells (t : Table) (name : String) : List (Option ℚ) :=
  t.rows.map (fun r => r.cell (t.colIdx name))

/-- Error message produced by get_value_range when the year is absent: the
YearNotFoundError raised at parser.py line 46 is caught by the blanket
handler of line 62 and re-raised as a ValueError with this message. -/
def valueRangeMsg (year : Nat) : String :=
  "Error getting value range: Year " ++ toString year ++ " not found in data"

/-- Model of FIGAROParser.get_value_range (parser.py lines 37 to 63).
Every exception, including the internally raised YearNotFoundError, is
wrapped into a ValueError by the blanket except clause, so the year-absent
outcome is a valueError, not a yearNotFound. -/
def get_value_range (d : Dataset) (year : Nat) :
    Except FigError (Option ℚ × Option ℚ) :=
  if !(d.imports.hasCol (toString year)) || !(d.exports.hasCol (toString year)) then
    Except.error (FigError.valueError (valueRangeMsg year))
  else
    Except.ok
      (pyMin2 (seriesMin (d.imports.colCells (toString year)))
              (seriesMin (d.exports.colCells (toString year))),
       pyMax2 (seriesMax (d.imports.colCells (toString year)))
              (seriesMax (d.exports.colCells (toString year))))

/-! ## Concrete datasets for counterexamples and witnesses -/

/-- Imports table of the worked example of the specification: rows B01
(AT, 100.5), B02 (BE, 150.3), B03 (DE, 0.0) and B04 (FR, missing) for the
years 2019 and 2020. -/
def impTable : Table :=
  ⟨"TIME,nace_r2,c_exp,unit,geo", ["2019", "2020"],
   [⟨"A,B01,EXP_GO,MIO_EUR,AT", [some (mkRat 201 2), some (mkRat 401 2)]⟩,
    ⟨"A,B02,EXP_GO,MIO_EUR,BE", [some (mkRat 1503 10), some (mkRat 2503 10)]⟩,
    ⟨"A,B03,EXP_GO,MIO_EUR,DE", [some (mkRat 0 1), some (mkRat 0 1)]⟩,
    ⟨"A,B04,EXP_GO,MIO_EUR,FR", [none, none]⟩]⟩

/-- Exports table whose single row has only missing values, so that the
exports side contributes no flow under the default NaN policy. -/
def expTable : Table :=
  ⟨"TIME,nace_r2,c_exp,unit,geo", ["2019", "2020"],
   [⟨"A,B09,IMP_GO,MIO_EUR,AT", [none, none]⟩]⟩

/-- The example dataset of the specification. -/
def exD : Dataset := ⟨impTable, expTable⟩

/-- Imports table with two rows whose classification codes share the same
first dot segment but carry different geographies, to probe the grouping
key of the aggregation step. -/
def impTableAgg : Table :=
  ⟨"TIME,nace_r2,c_exp,unit,geo", ["2019"],
   [⟨"A,C10.1,EXP_GO,MIO_EUR,AT", [some (mkRat 5 1)]⟩,
    ⟨"A,C10.2,EXP_GO,MIO_EUR,BE", [some (mkRat 7 1)]⟩]⟩

/-- Dataset around impTableAgg. -/
def exDAgg : Dataset := ⟨impTableAgg, expTable⟩

/-- Imports table containing a row whose compound key does not parse
(fewer than five comma-separated parts) but whose value cell is present. -/
def impTableBad : Table :=
  ⟨"TIME,nace_r2,c_exp,unit,geo", ["2019"],
   [⟨"A,B01,EXP_GO,MIO_EUR,AT", [some (mkRat 10 1)]⟩,
    ⟨"badkey", [some (mkRat 5 1)]⟩]⟩

/-- Exports table with one parseable row, used alongside impTableBad. -/
def expTableBE : Table :=
  ⟨"TIME,nace_r2,c_exp,unit,geo", ["2019"],
   [⟨"A,B02,IMP_GO,MIO_EUR,BE", [some (mkRat 3 1)]⟩]⟩

/-- Dataset with an unparseable-key row carrying a present value. -/
def exDBad : Dataset := ⟨impTableBad, expTableBE⟩

/-! ## Sanity checks on the concrete datasets -/

example : parse_metadata ("A,B01,EXP_GO,MIO_EUR,AT") =
    some ⟨"A", "B01", "EXP_GO", "MIO_EUR", "AT"⟩ := rfl

example : get_available_years impTable = [2019, 2020] := rfl

example : get_flow_data exD 2019 (mkRat 0 1) true none none true true =
    Except.ok
      [⟨some ("B01"), "Total Imports", some (mkRat 201 2)⟩,
       ⟨some ("B02"), "Total Imports", some (mkRat 1503 10)⟩,
       ⟨some ("B03"), "Total Imports", some (mkRat 0 1)⟩] := by
  with_unfolding_all rfl

example : get_flow_data exD 1900 (mkRat 0 1) true none none true true =
    Except.error (FigError.yearNotFound
      ("Year 1900 not found in data. Available years: 2019, 2020")) := by
  with_unfolding_all rfl

example : get_value_range exD 1900 =
    Except.error (FigError.valueError
      ("Error getting value range: Year 1900 not found in data")) := by
  with_unfolding_all rfl

example : get_value_range exD 2019 =
    Except.ok (some (mkRat 0 1), some (mkRat 1503 10)) := by
  with_unfolding_all rfl

example : get_flow_data exDAgg 2019 (mkRat 0 1) true (some 1) none true false =
    Except.ok [⟨some ("C10"), "Total Imports", some (mkRat 12 1)⟩] := by
  with_unfolding_all rfl

example : get_available_regions exDBad = ["AT", "BE"] := by with_unfolding_all rfl

example : get_flow_data exDBad 2019 (mkRat 0 1) false none none true true =
    Except.ok
      [⟨some ("B01"), "Total Imports", some (mkRat 10 1)⟩,
       ⟨none, "Total Imports", some (mkRat 5 1)⟩,
       ⟨some ("B02"), "Total Exports", some (mkRat 3 1)⟩] := by
  with_unfolding_all rfl

example : get_flow_data exDBad 2019 (mkRat 0 1) false none
      (some (get_available_regions exDBad)) true true =
    Except.ok
      [⟨some ("B01"), "Total Imports", some (mkRat 10 1)⟩,
       ⟨some ("B02"), "Total Exports", some (mkRat 3 1)⟩] := by
  with_unfolding_all rfl

/-! ## Helper lemmas on the pipeline steps -/

theorem regionStep_none (ts : List Triple) : regionStep none ts = ts := rfl

theorem regionStep_some (l : List String) (ts : List Triple) :
    regionStep (some l) ts =
      (if l.isEmpty = true then ts
       else ts.filter (fun tr =>
         match tr.geo with
         | some g => l.contains g
         | none => false)) := rfl

theorem naceStep_none (ts : List Triple) : naceStep none ts = ts := rfl

theorem naceStep_some (L : Int) (ts : List Triple) :
    naceStep (some L) ts =
      (if 0 < L then aggregate (ts.map (truncTriple L)) else ts) := rfl

theorem regionStep_sub (rs : Option (List String)) (ts : List Triple) (tr : Triple)
    (h : tr ∈ regionStep rs ts) : tr ∈ ts := by
  cases rs with
  | none => exact h
  | some l =>
    rw [regionStep_some] at h
    by_cases he : l.isEmpty = true
    · rw [if_pos he] at h; exact h
    · rw [if_neg he] at h; exact (List.mem_filter.mp h).1

theorem minValueStep_sub (mv : ℚ) (ts : List Triple) (tr : Triple)
    (h : tr ∈ minValueStep mv ts) : tr ∈ ts := by
  unfold minValueStep at h
  by_cases hp : 0 < mv
  · rw [if_pos hp] at h; exact (List.mem_filter.mp h).1
  · rw [if_neg hp] at h; exact h

theorem minValueStep_zero (ts : List Triple) : minValueStep 0 ts = ts := by
  unfold minValueStep
  rw [if_neg (lt_irrefl 0)]

theorem naceStep_nonpos (L : Int) (hL : L ≤ 0) (ts : List Triple) :
    naceStep (some L) ts = ts := by
  rw [naceStep_some, if_neg (not_lt.mpr hL)]

theorem process_ok_of_hasCol (imp t : Table) (year : Nat) (ft : String) (mv : ℚ)
    (dn : Bool) (lvl : Option Int) (rs : Option (List String))
    (hc : t.hasCol (toString year) = true) :
    process_flow_file imp t year ft mv dn lvl rs =
      Except.ok (if t.rows.isEmpty then []
        else emitFlows ft (naceStep lvl (filteredTriples t year mv dn rs))) := by
  unfold process_flow_file
  by_cases h : t.rows.isEmpty <;> simp [h, hc]

theorem process_congr_nace (imp t : Table) (year : Nat) (ft : String) (mv : ℚ)
    (dn : Bool) (rs : Option (List String)) (l1 l2 : Option Int)
    (h : naceStep l1 (filteredTriples t year mv dn rs) =
         naceStep l2 (filteredTriples t year mv dn rs)) :
    process_flow_file imp t year ft mv dn l1 rs =
      process_flow_file imp t year ft mv dn l2 rs := by
  unfold process_flow_file
  rw [h]

/-! ## Claim C10 -/

/-- Claim C10: with includeImports = false and includeExports = false,
get_flow_data returns the empty list and never fails, for every year and
filter combination; in particular no year check runs because the year
check is performed per included table only. -/
theorem C10_no_tables_empty_ok (d : Dataset) (year : Nat) (mv : ℚ) (dn : Bool)
    (lvl : Option Int) (rs : Option (List String)) :
    get_flow_data d year mv dn lvl rs false false = Except.ok [] := rfl

/-! ## Claim C3 -/

/-- Claim C3: the min-value filter of get_flow_data is inclusive at the
boundary.  For a positive minValue, a triple whose value equals minValue
passes the filter exactly when it was in the input, a triple whose value
is strictly below minValue is removed, and with minValue zero (its
default) the filter removes nothing. -/
theorem C3_min_value_boundary (mv : ℚ) (ts : List Triple) (tr : Triple) (v : ℚ)
    (hv : tr.value = some v) :
    (0 < mv → v = mv → (tr ∈ minValueStep mv ts ↔ tr ∈ ts)) ∧
    (0 < mv → v < mv → tr ∉ minValueStep mv ts) ∧
    minValueStep 0 ts = ts := by
  refine ⟨?_, ?_, minValueStep_zero ts⟩
  · intro hmv hveq
    unfold minValueStep
    rw [if_pos hmv]
    rw [List.mem_filter]
    constructor
    · exact fun h => h.1
    · intro h
      refine ⟨h, ?_⟩
      rw [hv]
      simp [hveq]
  · intro hmv hvlt hmem
    unfold minValueStep at hmem
    rw [if_pos hmv] at hmem
    have h2 := (List.mem_filter.mp hmem).2
    rw [hv] at h2
    simp at h2
    exact absurd h2 (not_le.mpr hvlt)

/-- Witness for C3 at a concrete triple: a value exactly equal to the
threshold two is kept and the zero threshold is the identity filter. -/
theorem C3_min_value_boundary_witness :
    (Triple.mk (some ("B01")) (some (mkRat 2 1)) (some ("AT"))).value = some (mkRat 2 1) ∧
    ((0 < mkRat 2 1 → mkRat 2 1 = mkRat 2 1 →
        (Triple.mk (some ("B01")) (some (mkRat 2 1)) (some ("AT")) ∈
            minValueStep (mkRat 2 1)
              [Triple.mk (some ("B01")) (some (mkRat 2 1)) (some ("AT"))] ↔
          Triple.mk (some ("B01")) (some (mkRat 2 1)) (some ("AT")) ∈
            [Triple.mk (some ("B01")) (some (mkRat 2 1)) (some ("AT"))])) ∧
      (0 < mkRat 2 1 → mkRat 2 1 < mkRat 2 1 →
        Triple.mk (some ("B01")) (some (mkRat 2 1)) (some ("AT")) ∉
          minValueStep (mkRat 2 1)
            [Triple.mk (some ("B01")) (some (mkRat 2 1)) (some ("AT"))]) ∧
      minValueStep 0 [Triple.mk (some ("B01")) (some (mkRat 2 1)) (some ("AT"))] =
        [Triple.mk (some ("B01")) (some (mkRat 2 1)) (some ("AT"))]) :=
  ⟨rfl, C3_min_value_boundary (mkRat 2 1)
    [Triple.mk (some ("B01")) (some (mkRat 2 1)) (some ("AT"))]
    (Triple.mk (some ("B01")) (some (mkRat 2 1)) (some ("AT"))) (mkRat 2 1) rfl⟩

/-! ## Claim C7 -/

/-- Counterexample to claim C7: a call with the negative classification
level minus one is not rejected before file access with an InvalidFilter
error; it succeeds and returns the same flows as a call without any
level (no InvalidFilter rejection exists in the code). -/
theorem C7_counterexample :
    get_flow_data exD 2019 (mkRat 0 1) true (some (-1)) none true true =
      Except.ok
        [⟨some ("B01"), "Total Imports", some (mkRat 201 2)⟩,
         ⟨some ("B02"), "Total Imports", some (mkRat 1503 10)⟩,
         ⟨some ("B03"), "Total Imports", some (mkRat 0 1)⟩] := by
  with_unfolding_all rfl

/-- Claim C7 amended: a non-positive classification level is not rejected;
get_flow_data treats it exactly like passing no level at all, so the
aggregation step is skipped and the call proceeds normally. -/
theorem C7_negative_level_ignored (d : Dataset) (year : Nat) (mv : ℚ) (dn : Bool)
    (rs : Option (List String)) (iI iE : Bool) (L : Int) (hL : L ≤ 0) :
    get_flow_data d year mv dn (some L) rs iI iE =
      get_flow_data d year mv dn none rs iI iE := by
  unfold get_flow_data
  rw [process_congr_nace d.imports d.imports year ("Total Imports") mv dn rs (some L) none
      (by rw [naceStep_nonpos L hL]; rfl),
    process_congr_nace d.imports d.exports year ("Total Exports") mv dn rs (some L) none
      (by rw [naceStep_nonpos L hL]; rfl)]

/-- Witness for C7 at the example dataset with level minus one. -/
theorem C7_negative_level_ignored_witness :
    (-1 : Int) ≤ 0 ∧
    get_flow_data exD 2019 (mkRat 0 1) true (some (-1)) none true true =
      get_flow_data exD 2019 (mkRat 0 1) true none none true true :=
  ⟨by decide,
   C7_negative_level_ignored exD 2019 (mkRat 0 1) true none true true (-1) (by decide)⟩

/-! ## Claim C1 -/

/-- Counterexample to claim C1: on the example dataset of the
specification, get_flow_data with default arguments keeps the zero-valued
row B03, returning three flows instead of the claimed two. -/
theorem C1_counterexample :
    get_flow_data exD 2019 (mkRat 0 1) true none none true true =
      Except.ok
        [⟨some ("B01"), "Total Imports", some (mkRat 201 2)⟩,
         ⟨some ("B02"), "Total Imports", some (mkRat 1503 10)⟩,
         ⟨some ("B03"), "Total Imports", some (mkRat 0 1)⟩] ∧
    ([⟨some ("B01"), "Total Imports", some (mkRat 201 2)⟩,
      ⟨some ("B02"), "Total Imports", some (mkRat 1503 10)⟩,
      ⟨some ("B03"), "Total Imports", some (mkRat 0 1)⟩] : List Flow) ≠
      [⟨some ("B01"), "Total Imports", some (mkRat 201 2)⟩,
       ⟨some ("B02"), "Total Imports", some (mkRat 1503 10)⟩] :=
  ⟨by with_unfolding_all rfl,
   fun hEq => absurd (congrArg List.length hEq) (by decide)⟩

/-- Claim C1 amended: with default arguments get_flow_data never drops a
row for having value zero.  Every imports row whose key parses and whose
cell for the requested year is present, zero or not, contributes its flow
to the output (provided the year column exists in both processed
tables). -/
theorem C1_zero_flows_kept (d : Dataset) (year : Nat) (r : Row)
    (m : FIGAROMetadata) (v : ℚ)
    (hr : r ∈ d.imports.rows)
    (hk : parse_metadata r.key = some m)
    (hc : (toString year) ∈ d.imports.cols)
    (hv : r.cell (d.imports.colIdx (toString year)) = some v)
    (he : d.exports.hasCol (toString year) = true) :
    ∃ fl, get_flow_data d year 0 true none none true true = Except.ok fl ∧
      (⟨some m.nace_r2, "Total Imports", some v⟩ : Flow) ∈ fl := by
  have hneI : d.imports.rows.isEmpty = false := by
    cases hrows : d.imports.rows with
    | nil => rw [hrows] at hr; cases hr
    | cons a l => rfl
  have hcI : d.imports.hasCol (toString year) = true := by
    unfold Table.hasCol
    rw [Bool.or_eq_true]
    exact Or.inr (List.contains_iff_exists_mem_beq.mpr ⟨toString year, hc, by simp⟩)
  have himp : process_flow_file d.imports d.imports year ("Total Imports") 0 true none none =
      Except.ok (emitFlows ("Total Imports") (dropnaStep true (projectTriples d.imports year))) := by
    rw [process_ok_of_hasCol d.imports d.imports year ("Total Imports") 0 true none none hcI]
    rw [hneI]
    unfold filteredTriples
    rw [regionStep_none, minValueStep_zero, naceStep_none]
    rfl
  have hexp : ∃ l, process_flow_file d.imports d.exports year ("Total Exports") 0 true none none =
      Except.ok l := by
    by_cases hx : d.exports.rows.isEmpty = true
    · refine ⟨[], ?_⟩
      unfold process_flow_file
      rw [if_pos hx]
    · refine ⟨emitFlows ("Total Exports") (naceStep none (filteredTriples d.exports year 0 true none)), ?_⟩
      rw [process_ok_of_hasCol d.imports d.exports year ("Total Exports") 0 true none none he]
      rw [if_neg hx]
  obtain ⟨exps, hex⟩ := hexp
  refine ⟨emitFlows ("Total Imports") (dropnaStep true (projectTriples d.imports year)) ++ exps,
    ?_, ?_⟩
  · unfold get_flow_data
    rw [if_pos rfl, if_pos rfl, himp, hex]
  · apply List.mem_append_left
    apply List.mem_filterMap.mpr
    refine ⟨⟨some m.nace_r2, some v, some m.geo⟩, ?_, rfl⟩
    unfold dropnaStep
    rw [if_pos rfl]
    apply List.mem_filter.mpr
    refine ⟨?_, by simp⟩
    unfold projectTriples
    apply List.mem_map.mpr
    refine ⟨r, hr, ?_⟩
    rw [hk, hv]
    rfl

/-- Witness for C1 at the zero-valued row B03 of the example dataset: the
flow with value zero is present in the default output. -/
theorem C1_zero_flows_kept_witness :
    (⟨"A,B03,EXP_GO,MIO_EUR,DE", [some (mkRat 0 1), some (mkRat 0 1)]⟩ : Row) ∈
      exD.imports.rows ∧
    ∃ fl, get_flow_data exD 2019 0 true none none true true = Except.ok fl ∧
      (⟨some ("B03"), "Total Imports", some (mkRat 0 1)⟩ : Flow) ∈ fl :=
  ⟨by with_unfolding_all decide,
   C1_zero_flows_kept exD 2019
     ⟨"A,B03,EXP_GO,MIO_EUR,DE", [some (mkRat 0 1), some (mkRat 0 1)]⟩
     ⟨"A", "B03", "EXP_GO", "MIO_EUR", "DE"⟩ (mkRat 0 1)
     (by with_unfolding_all decide) (by with_unfolding_all rfl)
     (by decide) (by with_unfolding_all rfl) (by with_unfolding_all rfl)⟩

/-! ## Claim C6 -/

theorem emit_value_isSome (ft : String) (ts : List Triple) :
    ∀ f ∈ emitFlows ft ts, f.value.isSome = true := by
  intro f hf
  obtain ⟨tr, _, hmap⟩ := List.mem_filterMap.mp hf
  cases hval : tr.value with
  | none => rw [hval] at hmap; exact absurd hmap (by simp)
  | some v =>
    rw [hval] at hmap
    injection hmap with hfe
    rw [← hfe]
    rfl

theorem process_ok_no_nan (imp t : Table) (year : Nat) (ft : String) (mv : ℚ)
    (dn : Bool) (lvl : Option Int) (rs : Option (List String)) (fl : List Flow)
    (h : process_flow_file imp t year ft mv dn lvl rs = Except.ok fl) :
    ∀ f ∈ fl, f.value.isSome = true := by
  unfold process_flow_file at h
  by_cases h1 : t.rows.isEmpty = true
  · rw [if_pos h1] at h
    injection h with h
    rw [← h]
    intro f hf
    cases hf
  · rw [if_neg h1] at h
    by_cases h2 : t.hasCol (toString year) = true
    · rw [h2] at h
      simp only [Bool.not_true, Bool.false_eq_true, if_false] at h
      injection h with h
      rw [← h]
      exact emit_value_isSome ft _
    · rw [Bool.not_eq_true] at h2
      rw [h2] at h
      simp only [Bool.not_false, if_true] at h
      exact absurd h (by simp)

/-- Counterexample to the second half of claim C6: on the example dataset,
with dropMissing = false, the parseable row B04 whose 2019 value is
missing contributes no flow at all; no NaN-valued flow appears, because
the emission loop itself filters NaN values. -/
theorem C6_counterexample :
    get_flow_data exD 2019 (mkRat 0 1) false none none true true =
      Except.ok
        [⟨some ("B01"), "Total Imports", some (mkRat 201 2)⟩,
         ⟨some ("B02"), "Total Imports", some (mkRat 1503 10)⟩,
         ⟨some ("B03"), "Total Imports", some (mkRat 0 1)⟩] ∧
    (⟨some ("B04"), "Total Imports", none⟩ : Flow) ∉
      ([⟨some ("B01"), "Total Imports", some (mkRat 201 2)⟩,
        ⟨some ("B02"), "Total Imports", some (mkRat 1503 10)⟩,
        ⟨some ("B03"), "Total Imports", some (mkRat 0 1)⟩] : List Flow) :=
  ⟨by with_unfolding_all rfl, by with_unfolding_all decide⟩

/-- Claim C6 amended: no value in the list returned by get_flow_data is
ever NaN, for either setting of dropMissing: the emission step of
_process_flow_file checks pd.isna on every row it emits, so a missing
value can never reach the output even when dropMissing is false. -/
theorem C6_no_nan_values (d : Dataset) (year : Nat) (mv : ℚ) (dn : Bool)
    (lvl : Option Int) (rs : Option (List String)) (iI iE : Bool) (fl : List Flow)
    (h : get_flow_data d year mv dn lvl rs iI iE = Except.ok fl) :
    ∀ f ∈ fl, f.value.isSome = true := by
  unfold get_flow_data at h
  cases hImp : (if iI = true then
      process_flow_file d.imports d.imports year ("Total Imports") mv dn lvl rs
    else Except.ok []) with
  | error e => rw [hImp] at h; exact absurd h (by simp)
  | ok imps =>
    rw [hImp] at h
    cases hExp : (if iE = true then
        process_flow_file d.imports d.exports year ("Total Exports") mv dn lvl rs
      else Except.ok []) with
    | error e => rw [hExp] at h; exact absurd h (by simp)
    | ok exps =>
      rw [hExp] at h
      injection h with h
      rw [← h]
      intro f hf
      rcases List.mem_append.mp hf with hf2 | hf2
      · by_cases hi : iI = true
        · rw [if_pos hi] at hImp
          exact process_ok_no_nan d.imports d.imports year ("Total Imports") mv dn lvl rs imps hImp f hf2
        · rw [if_neg hi] at hImp
          injection hImp with h2
          rw [← h2] at hf2
          cases hf2
      · by_cases hi : iE = true
        · rw [if_pos hi] at hExp
          exact process_ok_no_nan d.imports d.exports year ("Total Exports") mv dn lvl rs exps hExp f hf2
        · rw [if_neg hi] at hExp
          injection hExp with h2
          rw [← h2] at hf2
          cases hf2

/-- Witness for C6: the concrete default-off-NaN-policy output of the
example dataset contains only present values. -/
theorem C6_no_nan_values_witness :
    get_flow_data exD 2019 (mkRat 0 1) false none none true true =
      Except.ok
        [⟨some ("B01"), "Total Imports", some (mkRat 201 2)⟩,
         ⟨some ("B02"), "Total Imports", some (mkRat 1503 10)⟩,
         ⟨some ("B03"), "Total Imports", some (mkRat 0 1)⟩] ∧
    ∀ f ∈ ([⟨some ("B01"), "Total Imports", some (mkRat 201 2)⟩,
            ⟨some ("B02"), "Total Imports", some (mkRat 1503 10)⟩,
            ⟨some ("B03"), "Total Imports", some (mkRat 0 1)⟩] : List Flow),
      f.value.isSome = true :=
  ⟨by with_unfolding_all rfl,
   C6_no_nan_values exD 2019 (mkRat 0 1) false none none true true
     [⟨some ("B01"), "Total Imports", some (mkRat 201 2)⟩,
      ⟨some ("B02"), "Total Imports", some (mkRat 1503 10)⟩,
      ⟨some ("B03"), "Total Imports", some (mkRat 0 1)⟩]
     (by with_unfolding_all rfl)⟩

/-! ## Claim C4 -/

theorem process_err_of_missing_col (imp t : Table) (year : Nat) (ft : String)
    (mv : ℚ) (dn : Bool) (lvl : Option Int) (rs : Option (List String))
    (hne : t.rows.isEmpty = false) (hcol : t.hasCol (toString year) = false) :
    process_flow_file imp t year ft mv dn lvl rs =
      Except.error (FigError.yearNotFound
        (yearNotFoundMsg year (get_available_years imp))) := by
  unfold process_flow_file
  rw [hne, hcol]
  rfl

/-- Claim C4: whenever the requested year column is absent from a table
that get_flow_data actually processes (and the dataset passed
construction-time validation, so both tables have at least one row), the
call fails with YearNotFound, and the message embeds the available years
of the imports table, a sorted ascending comma-and-space-joined
enumeration produced by yearNotFoundMsg over get_available_years. -/
theorem C4_year_not_found (d : Dataset) (year : Nat) (mv : ℚ) (dn : Bool)
    (lvl : Option Int) (rs : Option (List String)) (iI iE : Bool)
    (hI : d.imports.rows.isEmpty = false) (hE : d.exports.rows.isEmpty = false)
    (hmiss : (iI = true ∧ d.imports.hasCol (toString year) = false) ∨
             (iE = true ∧ d.exports.hasCol (toString year) = false)) :
    get_flow_data d year mv dn lvl rs iI iE =
      Except.error (FigError.yearNotFound
        (yearNotFoundMsg year (get_available_years d.imports))) ∧
    List.Sorted (fun a b => a ≤ b) (get_available_years d.imports) := by
  constructor
  · unfold get_flow_data
    by_cases hic : d.imports.hasCol (toString year) = true
    · -- the imports side, when included, succeeds; the failure is in exports
      rcases hmiss with ⟨_, hfalse⟩ | ⟨hie, hcol⟩
      · rw [hic] at hfalse; cases hfalse
      · rw [hie]
        rw [process_err_of_missing_col d.imports d.exports year ("Total Exports") mv dn lvl rs hE hcol]
        by_cases hii : iI = true
        · rw [if_pos rfl, if_pos hii,
            process_ok_of_hasCol d.imports d.imports year ("Total Imports") mv dn lvl rs hic]
        · rw [if_pos rfl, if_neg hii]
    · rw [Bool.not_eq_true] at hic
      rcases hmiss with ⟨hii, _⟩ | ⟨hie, hcol⟩
      · rw [hii, if_pos rfl,
          process_err_of_missing_col d.imports d.imports year ("Total Imports") mv dn lvl rs hI hic]
      · by_cases hii : iI = true
        · rw [hii, if_pos rfl,
            process_err_of_missing_col d.imports d.imports year ("Total Imports") mv dn lvl rs hI hic]
        · rw [if_neg hii, hie, if_pos rfl,
            process_err_of_missing_col d.imports d.exports year ("Total Exports") mv dn lvl rs hE hcol]
  · unfold get_available_years
    rw [hI]
    simp only [Bool.false_eq_true, if_false]
    exact List.sorted_insertionSort (fun a b => a ≤ b) _

/-- Witness for C4: requesting 1900 on the example dataset fails with the
exact message enumerating 2019, 2020. -/
theorem C4_year_not_found_witness :
    exD.imports.hasCol (toString 1900) = false ∧
    get_flow_data exD 1900 (mkRat 0 1) true none none true true =
      Except.error (FigError.yearNotFound
        (yearNotFoundMsg 1900 (get_available_years exD.imports))) ∧
    List.Sorted (fun a b => a ≤ b) (get_available_years exD.imports) :=
  ⟨by with_unfolding_all rfl,
   C4_year_not_found exD 1900 (mkRat 0 1) true none none true true
     (by rfl) (by rfl) (Or.inl ⟨rfl, by with_unfolding_all rfl⟩)⟩

/-! ## Claim C5 -/

/-- Counterexample to claim C5: on the example dataset (years 2019 and
2020) the call for 1900 fails with a generic ValueError-style wrapping
message, not with a YearNotFound error: the YearNotFoundError raised
inside get_value_range is swallowed by the blanket except clause and
re-raised as ValueError. -/
theorem C5_counterexample :
    get_value_range exD 1900 =
      Except.error (FigError.valueError
        ("Error getting value range: Year 1900 not found in data")) := by
  with_unfolding_all rfl

/-- Claim C5 amended: when the year column is absent from either table,
get_value_range fails with a ValueError wrapping the year-not-found
message (not with YearNotFound, which its blanket except clause
swallows); when the year column is present in both tables the call never
raises, even when the dataset has no non-missing value for the year. -/
theorem C5_value_range_error_kind (d : Dataset) (year : Nat) :
    ((d.imports.hasCol (toString year) = false ∨
      d.exports.hasCol (toString year) = false) →
        get_value_range d year =
          Except.error (FigError.valueError (valueRangeMsg year))) ∧
    (d.imports.hasCol (toString year) = true →
      d.exports.hasCol (toString year) = true →
        ∃ p, get_value_range d year = Except.ok p) := by
  constructor
  · intro hmiss
    unfold get_value_range
    rcases hmiss with h | h <;> rw [h] <;> simp
  · intro h1 h2
    unfold get_value_range
    rw [h1, h2]
    exact ⟨_, rfl⟩

/-- Witness for C5: the error branch at 1900 and the non-raising branch at
2019 on the example dataset, whose exports column for 2019 is entirely
missing values. -/
theorem C5_value_range_error_kind_witness :
    exD.imports.hasCol (toString 1900) = false ∧
    get_value_range exD 1900 =
      Except.error (FigError.valueError (valueRangeMsg 1900)) ∧
    exD.imports.hasCol (toString 2019) = true ∧
    exD.exports.hasCol (toString 2019) = true ∧
    ∃ p, get_value_range exD 2019 = Except.ok p :=
  ⟨by with_unfolding_all rfl,
   (C5_value_range_error_kind exD 1900).1 (Or.inl (by with_unfolding_all rfl)),
   by with_unfolding_all rfl,
   by with_unfolding_all rfl,
   (C5_value_range_error_kind exD 2019).2 (by with_unfolding_all rfl)
     (by with_unfolding_all rfl)⟩

/-! ## Claim C9 -/

theorem filterMap_congr_mem {A B : Type} (f g : A → Option B) :
    ∀ l : List A, (∀ a ∈ l, f a = g a) → l.filterMap f = l.filterMap g
  | [], _ => rfl
  | a :: l, h => by
    rw [List.filterMap_cons, List.filterMap_cons,
      h a (List.mem_cons_self a l),
      filterMap_congr_mem f g l (fun b hb => h b (List.mem_cons_of_mem a hb))]

/-- Claim C9: for a valid dataset, whose column names carry no surrounding
whitespace and whose digit-named columns denote pairwise distinct years,
get_available_years returns a strictly ascending duplicate-free sequence
consisting of exactly the integer readings of the entirely-digit column
names after the first key column of the imports table header. -/
theorem C9_years_sorted_exact (t : Table)
    (h1 : t.rows.isEmpty = false)
    (h2 : ∀ c ∈ t.cols, pyStrip c = c)
    (h3 : (t.cols.filterMap
        (fun c => if pyIsDigit c then some (pyToNat c) else none)).Nodup) :
    List.Sorted (fun a b => a < b) (get_available_years t) ∧
    (get_available_years t).Perm
      (t.cols.filterMap (fun c => if pyIsDigit c then some (pyToNat c) else none)) := by
  have hfm : t.cols.filterMap
        (fun c => if pyIsDigit (pyStrip c) then some (pyToNat (pyStrip c)) else none) =
      t.cols.filterMap (fun c => if pyIsDigit c then some (pyToNat c) else none) :=
    filterMap_congr_mem _ _ t.cols (fun c hc => by rw [h2 c hc])
  have hy : get_available_years t =
      List.insertionSort (fun a b => a ≤ b)
        (t.cols.filterMap (fun c => if pyIsDigit c then some (pyToNat c) else none)) := by
    unfold get_available_years
    rw [h1]
    simp only [Bool.false_eq_true, if_false]
    rw [hfm]
  have hperm : (get_available_years t).Perm
      (t.cols.filterMap (fun c => if pyIsDigit c then some (pyToNat c) else none)) := by
    rw [hy]
    exact List.perm_insertionSort (fun a b => a ≤ b) _
  refine ⟨?_, hperm⟩
  have hsle : List.Sorted (fun a b => a ≤ b) (get_available_years t) := by
    rw [hy]
    exact List.sorted_insertionSort (fun a b => a ≤ b) _
  exact List.Sorted.lt_of_le hsle (hperm.symm.nodup h3)

/-- Witness for C9 at the imports table of the example dataset. -/
theorem C9_years_sorted_exact_witness :
    impTable.rows.isEmpty = false ∧
    List.Sorted (fun a b => a < b) (get_available_years impTable) ∧
    (get_available_years impTable).Perm
      (impTable.cols.filterMap
        (fun c => if pyIsDigit c then some (pyToNat c) else none)) :=
  ⟨rfl,
   (C9_years_sorted_exact impTable rfl
      (by with_unfolding_all decide) (by with_unfolding_all decide)).1,
   (C9_years_sorted_exact impTable rfl
      (by with_unfolding_all decide) (by with_unfolding_all decide)).2⟩

/-! ## Claim C8 -/

theorem projectTriples_geo (t : Table) (year : Nat) (tr : Triple)
    (h : tr ∈ projectTriples t year) :
    ∃ r ∈ t.rows, tr.geo = (parse_metadata r.key).map FIGAROMetadata.geo := by
  unfold projectTriples at h
  obtain ⟨r, hr, heq⟩ := List.mem_map.mp h
  exact ⟨r, hr, by rw [← heq]⟩

theorem geo_mem_regions (d : Dataset) (t : Table) (ht : t = d.imports ∨ t = d.exports)
    (r : Row) (m : FIGAROMetadata) (hr : r ∈ t.rows)
    (hm : parse_metadata r.key = some m) :
    m.geo ∈ get_available_regions d := by
  unfold get_available_regions
  rw [List.Perm.mem_iff (List.perm_insertionSort _ _)]
  rw [List.mem_dedup]
  apply List.mem_filterMap.mpr
  refine ⟨r, ?_, by rw [hm]; rfl⟩
  rcases ht with hh | hh <;> rw [hh] at hr
  · exact List.mem_append_left _ hr
  · exact List.mem_append_right _ hr

theorem filtered_geo_mem (d : Dataset) (t : Table)
    (ht : t = d.imports ∨ t = d.exports) (year : Nat) (mv : ℚ) (tr : Triple)
    (h : tr ∈ minValueStep mv (dropnaStep true (projectTriples t year))) :
    ∃ g, tr.geo = some g ∧ g ∈ get_available_regions d := by
  have h1 := minValueStep_sub mv _ tr h
  unfold dropnaStep at h1
  rw [if_pos rfl] at h1
  have h2 := List.mem_filter.mp h1
  obtain ⟨r, hr, hgeo⟩ := projectTriples_geo t year tr h2.1
  have hsome : tr.geo.isSome = true := by
    have h3 := h2.2
    simp only [Bool.and_eq_true] at h3
    exact h3.2
  cases hg : tr.geo with
  | none => rw [hg] at hsome; cases hsome
  | some g =>
    refine ⟨g, rfl, ?_⟩
    rw [hg] at hgeo
    cases hm : parse_metadata r.key with
    | none => rw [hm] at hgeo; cases hgeo
    | some m =>
      rw [hm] at hgeo
      injection hgeo with hge
      rw [hge]
      exact geo_mem_regions d t ht r m hr hm

theorem regionStep_full (d : Dataset) (t : Table)
    (ht : t = d.imports ∨ t = d.exports) (year : Nat) (mv : ℚ) :
    regionStep (some (get_available_regions d))
        (minValueStep mv (dropnaStep true (projectTriples t year))) =
      minValueStep mv (dropnaStep true (projectTriples t year)) := by
  rw [regionStep_some]
  by_cases he : (get_available_regions d).isEmpty = true
  · rw [if_pos he]
  · rw [if_neg he]
    apply List.filter_eq_self.mpr
    intro tr htr
    obtain ⟨g, hg, hmem⟩ := filtered_geo_mem d t ht year mv tr htr
    rw [hg]
    exact List.contains_iff_exists_mem_beq.mpr ⟨g, hmem, by simp⟩

/-- Counterexample to claim C8: on a dataset with an unparseable-key row
whose value cell is present, with dropMissing = false, regions = None
keeps the None-geography row while regions = listRegions() drops it, so
the two calls disagree. -/
theorem C8_counterexample :
    get_flow_data exDBad 2019 (mkRat 0 1) false none none true true =
      Except.ok
        [⟨some ("B01"), "Total Imports", some (mkRat 10 1)⟩,
         ⟨none, "Total Imports", some (mkRat 5 1)⟩,
         ⟨some ("B02"), "Total Exports", some (mkRat 3 1)⟩] ∧
    get_flow_data exDBad 2019 (mkRat 0 1) false none
        (some (get_available_regions exDBad)) true true =
      Except.ok
        [⟨some ("B01"), "Total Imports", some (mkRat 10 1)⟩,
         ⟨some ("B02"), "Total Exports", some (mkRat 3 1)⟩] ∧
    ([⟨some ("B01"), "Total Imports", some (mkRat 10 1)⟩,
      ⟨none, "Total Imports", some (mkRat 5 1)⟩,
      ⟨some ("B02"), "Total Exports", some (mkRat 3 1)⟩] : List Flow) ≠
      [⟨some ("B01"), "Total Imports", some (mkRat 10 1)⟩,
       ⟨some ("B02"), "Total Exports", some (mkRat 3 1)⟩] :=
  ⟨by with_unfolding_all rfl,
   by with_unfolding_all rfl,
   fun hEq => absurd (congrArg List.length hEq) (by decide)⟩

/-- Claim C8 amended: with dropMissing = true (rows with unparseable keys
are dropped before the region filter, so no None geography survives),
regions = None produces exactly the same flow list as passing the full
listRegions() set; and for any non-empty region list the region filter is
the subset operation keeping exactly the triples whose geography is a
member of the list.  With dropMissing = false the two calls can differ on
rows with unparseable keys, as the counterexample shows. -/
theorem C8_regions_none_eq_full (d : Dataset) (year : Nat) (mv : ℚ)
    (lvl : Option Int) (iI iE : Bool) :
    get_flow_data d year mv true lvl none iI iE =
      get_flow_data d year mv true lvl (some (get_available_regions d)) iI iE ∧
    (∀ rs : List String, rs ≠ [] → ∀ (ts : List Triple) (tr : Triple),
      (tr ∈ regionStep (some rs) ts ↔
        tr ∈ ts ∧ ∃ g, tr.geo = some g ∧ g ∈ rs)) := by
  constructor
  · have key : ∀ t, (t = d.imports ∨ t = d.exports) → ∀ ft,
        process_flow_file d.imports t year ft mv true lvl none =
          process_flow_file d.imports t year ft mv true lvl
            (some (get_available_regions d)) := by
      intro t ht ft
      unfold process_flow_file
      unfold filteredTriples
      rw [regionStep_none, regionStep_full d t ht year mv]
    unfold get_flow_data
    rw [key d.imports (Or.inl rfl) "Total Imports",
      key d.exports (Or.inr rfl) "Total Exports"]
  · intro rs hrs ts tr
    have hne : rs.isEmpty = false := by
      cases rs with
      | nil => exact absurd rfl hrs
      | cons a l => rfl
    rw [regionStep_some, if_neg (by rw [hne]; exact Bool.false_ne_true)]
    rw [List.mem_filter]
    constructor
    · rintro ⟨hmem, hpred⟩
      refine ⟨hmem, ?_⟩
      cases hg : tr.geo with
      | none =>
        rw [hg] at hpred
        exact absurd hpred (by simp)
      | some g =>
        rw [hg] at hpred
        obtain ⟨a, ha, hbeq⟩ := List.contains_iff_exists_mem_beq.mp hpred
        exact ⟨g, rfl, by rw [eq_of_beq hbeq]; exact ha⟩
    · rintro ⟨hmem, g, hg, hgrs⟩
      refine ⟨hmem, ?_⟩
      rw [hg]
      exact List.contains_iff_exists_mem_beq.mpr ⟨g, hgrs, by simp⟩

/-- Witness for C8: the equality of the two calls on the example dataset
with the NaN-drop policy active, and the membership characterisation of
the region filter at a concrete triple. -/
theorem C8_regions_none_eq_full_witness :
    (get_flow_data exD 2019 (mkRat 0 1) true none none true true =
      get_flow_data exD 2019 (mkRat 0 1) true none
        (some (get_available_regions exD)) true true) ∧
    ((⟨some ("B01"), some (mkRat 201 2), some ("AT")⟩ : Triple) ∈
        regionStep (some ["AT"]) [⟨some ("B01"), some (mkRat 201 2), some ("AT")⟩] ↔
      (⟨some ("B01"), some (mkRat 201 2), some ("AT")⟩ : Triple) ∈
          [(⟨some ("B01"), some (mkRat 201 2), some ("AT")⟩ : Triple)] ∧
        ∃ g, (⟨some ("B01"), some (mkRat 201 2), some ("AT")⟩ : Triple).geo = some g ∧
          g ∈ ["AT"]) :=
  ⟨(C8_regions_none_eq_full exD 2019 (mkRat 0 1) none true true).1,
   (C8_regions_none_eq_full exD 2019 (mkRat 0 1) none true true).2
     ["AT"] (by decide) [⟨some ("B01"), some (mkRat 201 2), some ("AT")⟩]
     ⟨some ("B01"), some (mkRat 201 2), some ("AT")⟩⟩

/-! ## Claim C2 -/

theorem groupKeys_nodup (ms : List Triple) : (groupKeys ms).Nodup :=
  ((List.perm_insertionSort (fun a b => strLeB a b = true)
      (ms.filterMap Triple.nace).dedup).symm).nodup (List.nodup_dedup _)

theorem mem_groupKeys (ms : List Triple) (c : String) :
    c ∈ groupKeys ms ↔ c ∈ ms.filterMap Triple.nace := by
  unfold groupKeys
  rw [List.Perm.mem_iff (List.perm_insertionSort _ _)]
  exact List.mem_dedup

theorem aggregate_eq_map (ms : List Triple) :
    aggregate ms =
      (groupKeys ms).map (fun k => ⟨some k, some (groupSum ms k), none⟩) := rfl

theorem emitFlows_map_somekeys (ft : String) (h : String → ℚ) :
    ∀ ks : List String,
      emitFlows ft (ks.map (fun k => ⟨some k, some (h k), none⟩)) =
        ks.map (fun k => ⟨some k, ft, some (h k)⟩)
  | [] => rfl
  | k :: ks => by
    have ih := emitFlows_map_somekeys ft h ks
    unfold emitFlows at ih ⊢
    rw [List.map_cons, List.filterMap_cons]
    dsimp only
    rw [ih]
    rfl

theorem filteredTriples_min (t : Table) (year : Nat) (mv : ℚ) (dn : Bool)
    (rs : Option (List String)) (tr : Triple)
    (htr : tr ∈ filteredTriples t year mv dn rs) (hmv : 0 < mv) :
    ∃ v, tr.value = some v ∧ mv ≤ v := by
  have h1 : tr ∈ minValueStep mv (dropnaStep dn (projectTriples t year)) :=
    regionStep_sub rs _ tr htr
  unfold minValueStep at h1
  rw [if_pos hmv] at h1
  have h2 := (List.mem_filter.mp h1).2
  cases hv : tr.value with
  | none => rw [hv] at h2; exact absurd h2 (by simp)
  | some v =>
    rw [hv] at h2
    exact ⟨v, rfl, of_decide_eq_true h2⟩

theorem truncatedTriples_min (t : Table) (year : Nat) (mv : ℚ) (dn : Bool)
    (rs : Option (List String)) (L : Int) (tr : Triple)
    (htr : tr ∈ truncatedTriples t year mv dn rs L) (hmv : 0 < mv) :
    ∃ v, tr.value = some v ∧ mv ≤ v := by
  unfold truncatedTriples at htr
  obtain ⟨tr1, htr1, heq⟩ := List.mem_map.mp htr
  obtain ⟨v, hv, hle⟩ := filteredTriples_min t year mv dn rs tr1 htr1 hmv
  refine ⟨v, ?_, hle⟩
  rw [← heq]
  exact hv

/-- Counterexample to claim C2: with classificationLevel = 1 on a dataset
whose rows C10.1 (AT, 5) and C10.2 (BE, 7) truncate to the same code C10
but carry different geographies, the code emits a single flow with the
cross-geography sum 12, not one flow per (truncated_code, geography)
pair: the groupby key is the truncated code alone. -/
theorem C2_counterexample :
    get_flow_data exDAgg 2019 (mkRat 0 1) true (some 1) none true false =
      Except.ok [⟨some ("C10"), "Total Imports", some (mkRat 12 1)⟩] ∧
    ([⟨some ("C10"), "Total Imports", some (mkRat 12 1)⟩] : List Flow).length = 1 :=
  ⟨by with_unfolding_all rfl, rfl⟩

/-- Claim C2 amended: for a positive classificationLevel the surviving
triples are truncated and then grouped by the truncated code ALONE
(geography is not part of the group key), one flow per distinct truncated
code, each carrying the sum over every geography; the truncation and
aggregation happen after the min-value and region filters, and as a
consequence, when minValue is positive every aggregated value is at least
minValue (each constituent row passed the per-row threshold, and a sum of
such rows can never fall below it). -/
theorem C2_aggregation_by_code (imp t : Table) (year : Nat) (ft : String)
    (mv : ℚ) (dn : Bool) (rs : Option (List String)) (L : Int) (fl : List Flow)
    (hL : 0 < L)
    (hne : t.rows.isEmpty = false)
    (hcol : t.hasCol (toString year) = true)
    (hout : process_flow_file imp t year ft mv dn (some L) rs = Except.ok fl) :
    (fl.map Flow.source).Nodup ∧
    (∀ f ∈ fl, ∃ c, f.source = some c ∧
      f.value = some (groupSum (truncatedTriples t year mv dn rs L) c)) ∧
    (∀ c : String,
      some c ∈ (truncatedTriples t year mv dn rs L).map Triple.nace →
        some c ∈ fl.map Flow.source) ∧
    (0 < mv → ∀ f ∈ fl, ∃ v, f.value = some v ∧ mv ≤ v) := by
  rw [process_ok_of_hasCol imp t year ft mv dn (some L) rs hcol, hne] at hout
  simp only [Bool.false_eq_true, if_false] at hout
  rw [naceStep_some, if_pos hL] at hout
  injection hout with hfl
  have hms : (filteredTriples t year mv dn rs).map (truncTriple L) =
      truncatedTriples t year mv dn rs L := rfl
  rw [hms] at hfl
  rw [aggregate_eq_map, emitFlows_map_somekeys ft
    (fun k => groupSum (truncatedTriples t year mv dn rs L) k)] at hfl
  subst hfl
  refine ⟨?_, ?_, ?_, ?_⟩
  · rw [List.map_map]
    exact List.Nodup.map (fun a b hab => Option.some.inj hab)
      (groupKeys_nodup (truncatedTriples t year mv dn rs L))
  · intro f hf
    obtain ⟨k, _, heq⟩ := List.mem_map.mp hf
    refine ⟨k, ?_, ?_⟩ <;> rw [← heq]
  · intro c hc
    obtain ⟨tr, htr, hnace⟩ := List.mem_map.mp hc
    have hk : c ∈ groupKeys (truncatedTriples t year mv dn rs L) :=
      (mem_groupKeys _ c).mpr (List.mem_filterMap.mpr ⟨tr, htr, hnace⟩)
    rw [List.map_map]
    exact List.mem_map.mpr ⟨c, hk, rfl⟩
  · intro hmv f hf
    obtain ⟨k, hk, heq⟩ := List.mem_map.mp hf
    have hkm : k ∈ (truncatedTriples t year mv dn rs L).filterMap Triple.nace :=
      (mem_groupKeys _ k).mp hk
    obtain ⟨tr0, htr0, hnace0⟩ := List.mem_filterMap.mp hkm
    obtain ⟨v0, hv0, hle0⟩ :=
      truncatedTriples_min t year mv dn rs L tr0 htr0 hmv
    have hbeq : (tr0.nace == some k) = true := by rw [hnace0]; simp
    have hv0G : v0 ∈ ((truncatedTriples t year mv dn rs L).filter
        (fun tr => tr.nace == some k)).filterMap Triple.value :=
      List.mem_filterMap.mpr ⟨tr0, List.mem_filter.mpr ⟨htr0, hbeq⟩, hv0⟩
    have hpos : ∀ x ∈ ((truncatedTriples t year mv dn rs L).filter
        (fun tr => tr.nace == some k)).filterMap Triple.value, (0:ℚ) ≤ x := by
      intro x hx
      obtain ⟨tr, htrf, hval⟩ := List.mem_filterMap.mp hx
      have htrm : tr ∈ truncatedTriples t year mv dn rs L :=
        (List.mem_filter.mp htrf).1
      obtain ⟨v, hv, hlev⟩ := truncatedTriples_min t year mv dn rs L tr htrm hmv
      rw [hv] at hval
      injection hval with hval
      rw [← hval]
      exact le_trans (le_of_lt hmv) hlev
    have hsum : v0 ≤ groupSum (truncatedTriples t year mv dn rs L) k :=
      List.single_le_sum hpos v0 hv0G
    refine ⟨groupSum (truncatedTriples t year mv dn rs L) k, ?_, le_trans hle0 hsum⟩
    rw [← heq]

/-- Witness for C2 at the aggregation dataset with threshold two: both
rows pass the per-row threshold, truncate to C10, and the single output
flow carries their sum twelve, which is at least the threshold. -/
theorem C2_aggregation_by_code_witness :
    (0:Int) < 1 ∧
    process_flow_file impTableAgg impTableAgg 2019 ("Total Imports")
        (mkRat 2 1) true (some 1) none =
      Except.ok [⟨some ("C10"), "Total Imports", some (mkRat 12 1)⟩] ∧
    ((([⟨some ("C10"), "Total Imports", some (mkRat 12 1)⟩] : List Flow).map
        Flow.source).Nodup ∧
      (∀ f ∈ ([⟨some ("C10"), "Total Imports", some (mkRat 12 1)⟩] : List Flow),
        ∃ c, f.source = some c ∧
          f.value = some (groupSum
            (truncatedTriples impTableAgg 2019 (mkRat 2 1) true none 1) c)) ∧
      (∀ c : String,
        some c ∈ (truncatedTriples impTableAgg 2019 (mkRat 2 1) true none 1).map
            Triple.nace →
          some c ∈ ([⟨some ("C10"), "Total Imports", some (mkRat 12 1)⟩] : List Flow).map
            Flow.source) ∧
      (0 < mkRat 2 1 →
        ∀ f ∈ ([⟨some ("C10"), "Total Imports", some (mkRat 12 1)⟩] : List Flow),
          ∃ v, f.value = some v ∧ mkRat 2 1 ≤ v)) :=
  ⟨by decide,
   by with_unfolding_all rfl,
   C2_aggregation_by_code impTableAgg impTableAgg 2019 ("Total Imports")
     (mkRat 2 1) true none 1 [⟨some ("C10"), "Total Imports", some (mkRat 12 1)⟩]
     (by decide) rfl (by with_unfolding_all rfl) (by with_unfolding_all rfl)⟩

end EconFlow
